import Mathlib

/-!
Verification development for the game-session engine of the psychotropic
chat bot (files `psychotropic/cogs/games/__init__.py`,
`psychotropic/cogs/games/structure.py`, `psychotropic/cogs/games/reagents.py`
and `psychotropic/utils.py`).

Strings are modelled as lists of Unicode code points (`List Nat`), so that the
case- and accent-handling of `utils.unformat` can be stated exactly.
-/

namespace Psychotropic

/-- Code points of a Lean string literal; used to inject concrete strings into
the `List Nat` model. -/
def strCodes (s : String) : List Nat :=
  s.toList.map Char.toNat

/-! ## Guess normalization (`utils.unaccent`, `utils.unformat`)

`unformat(string, non_word)` lowercases the string, applies
`unicodedata.normalize('NFKD', ·).encode('ASCII', 'ignore')` and drops the
characters of `non_word`.  The two character-level primitives below tabulate
`str.lower` and NFKD-then-ASCII-ignore from the Unicode character database for
the code points this development touches: ASCII is mapped exactly; U+00C9 É and
U+00E9 é carry their real case mapping and decomposition (E/e + U+0301, the
combining accent being non-ASCII is dropped); U+2116 № has no case mapping and
NFKD-decomposes to `No` (UnicodeData entry `2116;...;<compat> 004E 006F;...`).
Other non-ASCII code points are treated as having no ASCII decomposition. -/

/-- Model of `str.lower` on one code point. -/
def pyLower (c : Nat) : Nat :=
  if 65 ≤ c ∧ c ≤ 90 then c + 32
  else if c = 0xC9 then 0xE9
  else c

/-- NFKD decomposition followed by `encode('ASCII', 'ignore')` on one code
point. Every produced code point is ASCII. -/
def unaccentChar (c : Nat) : List Nat :=
  if c < 128 then [c]
  else if c = 0xE9 then [0x65]
  else if c = 0xC9 then [0x45]
  else if c = 0x2116 then [0x4E, 0x6F]
  else []

/-- Model of `utils.unformat(string, non_word)`: lowercase, unaccent, then drop the
`non_word` characters. -/
def unformat (s nonWord : List Nat) : List Nat :=
  ((s.map pyLower).flatMap unaccentChar).filter (fun c => decide (c ∉ nonWord))

/-- The default `non_word` argument of `utils.unformat`: `'();-_, '`. -/
def defaultNonWord : List Nat := strCodes "();-_, "

/-! ## Reveal game (`structure.StructureGame`) -/

/-- Model of `StructureGame.NON_WORD`: `"();-, "` (note: unlike `defaultNonWord`,
no underscore). -/
def NON_WORD : List Nat := strCodes "();-, "

/-- State of `StructureGame`: the secret substance name, the still-hidden
character positions (in the shuffled reveal order, popped from the end), the
original hidden count and the attempt counter. -/
structure StructureGame where
  substance : List Nat
  secret_chars : List Nat
  guess_len : Nat
  tries : Nat
deriving DecidableEq

/-- Model of `[i for i, c in enumerate(self.substance) if c not in self.NON_WORD]`. -/
def secretIndices (substance : List Nat) : List Nat :=
  (substance.enum.filter (fun p => decide (p.2 ∉ NON_WORD))).map Prod.fst

/-- Model of `StructureGame.__init__`. The random `shuffled` is passed in as a
function parameter; `guess_len` is the length of the shuffled result, exactly
as in the source (`self.guess_len = len(self.secret_chars)`). -/
def mkGame (substance : List Nat) (shuffle : List Nat → List Nat) :
    StructureGame :=
  let sc := shuffle (secretIndices substance)
  { substance := substance, secret_chars := sc, guess_len := sc.length
    tries := 0 }

/-- Model of `StructureGame.clue`: hidden positions shown as `_` (code 95), separators
and revealed positions verbatim. -/
def clue (g : StructureGame) : List Nat :=
  g.substance.enum.map
    (fun p => if p.2 ∈ NON_WORD ∨ p.1 ∉ g.secret_chars then p.2 else 95)

/-- Model of `StructureGame.reward`:
`len(self.secret_chars) / (1 if self.tries <= 1 else 2)`. -/
def reward (g : StructureGame) : ℚ :=
  (g.secret_chars.length : ℚ) / (if g.tries ≤ 1 then 1 else 2)

/-- Decidable contiguous-substring test, modelling Python's `in` on strings. -/
def substrOf (a b : List Nat) : Bool :=
  (List.range (b.length + 1)).any (fun i => a.isPrefixOf (b.drop i))

/-- Model of `StructureGame.is_correct(guess)`: increments the attempt counter and
reports whether the unformatted secret occurs in the unformatted guess. -/
def isCorrect (g : StructureGame) (guess : List Nat) : StructureGame × Bool :=
  ({ g with tries := g.tries + 1 },
   substrOf (unformat g.substance NON_WORD) (unformat guess NON_WORD))

/-- The state change of `StructureGame.get_clue`: pop
`max(1, self.guess_len // 4)` trailing elements of `secret_chars`, stopping
early when the list is exhausted. -/
def getClueState (g : StructureGame) : StructureGame :=
  { g with
    secret_chars :=
      g.secret_chars.take (g.secret_chars.length - max 1 (g.guess_len / 4)) }

/-- Model of `StructureGame.get_clue`, which also returns the new clue string. -/
def getClue (g : StructureGame) : StructureGame × List Nat :=
  (getClueState g, clue (getClueState g))

/-- A concrete game used as a witness input: secret `Psilocybin` (ten
guessable characters, no separators), identity shuffle. -/
def sampleGame : StructureGame := mkGame (strCodes "Psilocybin") id


/-! ## Session registry (`BaseRunningGame`)

`BaseRunningGame.registry` maps channel ids to running-game instances.
Instances are modelled by a session id (standing for Python object identity),
their concrete class (`RunningStructureGame` or `RunningReagentsGame`) and the
attempt counter of their underlying game object. -/

/-- The concrete class of a running game instance. -/
inductive Variant where
  | structureV
  | reagentsV
deriving DecidableEq

/-- The class on which a registry lookup is performed: `BaseRunningGame`
itself or one of its two subclasses. -/
inductive Cls where
  | baseC
  | structureC
  | reagentsC
deriving DecidableEq

/-- Model of `isinstance(running_game, cls)` for the three classes involved: every
running game is a `BaseRunningGame`; the two subclasses only match their own
instances. -/
def instanceOf (v : Variant) : Cls → Bool
  | .baseC => true
  | .structureC => decide (v = Variant.structureV)
  | .reagentsC => decide (v = Variant.reagentsV)

/-- A running game instance: identity, class and attempt counter. -/
structure Session where
  sid : Nat
  variant : Variant
  tries : Nat
deriving DecidableEq

/-- Model of `BaseRunningGame.registry`: channel id → registered instance. -/
abbrev Registry := Nat → Option Session

/-- Assignment `registry[ch] = v` (or deletion when `v = none`). -/
def updateReg (reg : Registry) (ch : Nat) (v : Option Session) : Registry :=
  fun c => if c = ch then v else reg c

/-- Model of `cls.get_from_context(interaction)`: the registered game of the message's
channel, or `None` when none is registered or it is an instance of another
class. -/
def getFromContext (c : Cls) (reg : Registry) (ch : Nat) : Option Session :=
  match reg ch with
  | some s => if instanceOf s.variant c then some s else none
  | none => none

/-- Model of `cls.start(interaction, ...)`: reject (returning `None` and leaving the
registry alone) when `BaseRunningGame.get_from_context` finds any running game
in the channel; otherwise run `__init__`, which registers the new instance. -/
def startGame (v : Variant) (sid : Nat) (reg : Registry) (ch : Nat) :
    Registry × Option Session :=
  match getFromContext Cls.baseC reg ch with
  | some _ => (reg, none)
  | none =>
    let s : Session := ⟨sid, v, 0⟩
    (updateReg reg ch (some s), some s)

/-- The registry effect of `BaseRunningGame.end`: pop the channel's entry only
when it still refers to the instance being ended. -/
def endSessionReg (reg : Registry) (ch : Nat) (sid : Nat) : Registry :=
  match reg ch with
  | some s => if s.sid = sid then updateReg reg ch none else reg
  | none => reg

/-- The state touched by `BaseRunningGame.end`: the registry, the cancelled
flags of the ending session's tasks, and the scoreboard (a player-id →
balance map here; `end` never touches it). -/
structure LiveState where
  registry : Registry
  tasks : List Bool
  scoreboard : List (String × ℚ)

/-- Model of `BaseRunningGame.end`: cancel every task of the session, then
conditionally pop the registry entry. -/
def endSession (st : LiveState) (ch sid : Nat) : LiveState :=
  { registry := endSessionReg st.registry ch sid
    tasks := st.tasks.map (fun _ => true)
    scoreboard := st.scoreboard }

/-- The first step of the `on_message` listeners of the two game cogs: look
the channel up through the cog's own running-game class; absent a match,
return without touching anything; otherwise `check_answer` increments the
attempt counter and, when the guess is correct, ends the session. -/
def onMessageStep (c : Cls) (reg : Registry) (ch : Nat) (correct : Bool) :
    Registry :=
  match getFromContext c reg ch with
  | none => reg
  | some s =>
    let s' : Session := { s with tries := s.tries + 1 }
    let reg' := updateReg reg ch (some s')
    if correct then endSessionReg reg' ch s'.sid else reg'

/-- The empty registry. -/
def emptyReg : Registry := fun _ => none

/-- A registry whose channel 1 runs a structure game (session id 7). -/
def occReg : Registry := updateReg emptyReg 1 (some ⟨7, Variant.structureV, 0⟩)

/-- A registry whose channel 1 runs a reagents game (session id 5). -/
def reagReg : Registry := updateReg emptyReg 1 (some ⟨5, Variant.reagentsV, 0⟩)

/-! ## Scoreboard serialization (`Profile`, `ScoreboardJSONEncoder`,
`ScoreboardJSONDecoder`)

`PyVal` models the Python values the scoreboard code manipulates — note that
lists and sets are distinct constructors, and that `Profile` dataclass
instances carry their four fields (`balance`, `found_structure_substances`,
`won_structure_games`, `won_reagents_games`) dynamically typed, exactly as
Python does.  `JVal` models parsed JSON documents. -/

/-- A Python value handled by the scoreboard code. The `pset` payload is the
set's iteration order. -/
inductive PyVal where
  | pnone
  | pbool (b : Bool)
  | pnum (q : ℚ)
  | pstr (s : String)
  | plist (l : List PyVal)
  | pset (l : List PyVal)
  | pdict (l : List (String × PyVal))
  | pprofile (balance found_structure_substances won_structure_games
      won_reagents_games : PyVal)

/-- A JSON document. -/
inductive JVal where
  | null
  | jbool (b : Bool)
  | jnum (q : ℚ)
  | jstr (s : String)
  | jarr (l : List JVal)
  | jobj (l : List (String × JVal))

mutual

/-- Model of `json.dump(..., cls=ScoreboardJSONEncoder)`: sets are serialized through
`default` as `list(o)`, profiles as `asdict(o) | {"__type__": "Profile"}`. -/
def encodeVal : PyVal → JVal
  | .pnone => .null
  | .pbool b => .jbool b
  | .pnum q => .jnum q
  | .pstr s => .jstr s
  | .plist l => .jarr (encodeList l)
  | .pset l => .jarr (encodeList l)
  | .pdict l => .jobj (encodePairs l)
  | .pprofile b f ws wr =>
    .jobj [("balance", encodeVal b),
           ("found_structure_substances", encodeVal f),
           ("won_structure_games", encodeVal ws),
           ("won_reagents_games", encodeVal wr),
           ("__type__", .jstr "Profile")]

def encodeList : List PyVal → List JVal
  | [] => []
  | v :: t => encodeVal v :: encodeList t

def encodePairs : List (String × PyVal) → List (String × JVal)
  | [] => []
  | (k, v) :: t => (k, encodeVal v) :: encodePairs t

end

/-- The field names of the `Profile` dataclass. -/
def profileFields : List String :=
  ["balance", "found_structure_substances", "won_structure_games",
   "won_reagents_games"]

/-- Model of `obj.pop("__type__", None)`: the mapping with the key removed. -/
def removeKey (k : String) (l : List (String × PyVal)) :
    List (String × PyVal) :=
  l.filter (fun p => p.1 != k)

/-- Model of `Profile(**obj)`: raises `TypeError` on a keyword that is not a dataclass
field; missing fields take the dataclass defaults (`0`, `set()`, `0`, `0`). -/
def buildProfile (kwargs : List (String × PyVal)) : Except String PyVal :=
  if kwargs.all (fun p => profileFields.contains p.1) then
    .ok (.pprofile
      ((kwargs.lookup "balance").getD (.pnum 0))
      ((kwargs.lookup "found_structure_substances").getD (.pset []))
      ((kwargs.lookup "won_structure_games").getD (.pnum 0))
      ((kwargs.lookup "won_reagents_games").getD (.pnum 0)))
  else .error "TypeError: Profile() got an unexpected keyword argument"

/-- Model of `popped == "Profile"`: Python equality of the popped tag against the
string `"Profile"`; `False` on any non-string value (including `None` from a
missing key, handled separately below). -/
def isProfileTag : PyVal → Bool
  | .pstr s => s == "Profile"
  | _ => false

/-- Model of `ScoreboardJSONDecoder.object_hook`: pop `__type__` (removed whatever its
value); rebuild a `Profile` when it was the string `"Profile"`, otherwise
return the bare mapping. -/
def objectHook (l : List (String × PyVal)) : Except String PyVal :=
  match l.lookup "__type__" with
  | none => .ok (.pdict l)
  | some t =>
    if isProfileTag t then buildProfile (removeKey "__type__" l)
    else .ok (.pdict (removeKey "__type__" l))

mutual

/-- Model of `json.load(..., cls=ScoreboardJSONDecoder)`: parse bottom-up, applying
`object_hook` to every JSON object. -/
def decodeVal : JVal → Except String PyVal
  | .null => .ok .pnone
  | .jbool b => .ok (.pbool b)
  | .jnum q => .ok (.pnum q)
  | .jstr s => .ok (.pstr s)
  | .jarr l => do
    let r ← decodeList l
    .ok (.plist r)
  | .jobj l => do
    let r ← decodePairs l
    objectHook r

def decodeList : List JVal → Except String (List PyVal)
  | [] => .ok []
  | v :: t => do
    let a ← decodeVal v
    let r ← decodeList t
    .ok (a :: r)

def decodePairs : List (String × JVal) → Except String (List (String × PyVal))
  | [] => .ok []
  | (k, v) :: t => do
    let a ← decodeVal v
    let r ← decodePairs t
    .ok ((k, a) :: r)

end

/-- A fresh profile holding the two found substances of the round-trip
scenario. -/
def profLSD : PyVal :=
  .pprofile (.pnum 0) (.pset [.pstr "LSD", .pstr "Psilocybin"]) (.pnum 0)
    (.pnum 0)

/-! ## Reagents game win bookkeeping (`reagents.RunningReagentsGame`) -/

/-- Model of `ReagentsGame.reward`: `50 if self.tries == 1 else 25`. -/
def reagentsReward (tries : Nat) : ℚ :=
  if tries = 1 then 50 else 25

/-- The scoreboard mutation of `RunningReagentsGame.check_answer` on a correct
guess, exactly as written in the source:
`balance += game.reward; won_structure_games += 1`.
`none` models the `TypeError` a non-numeric field would raise. -/
def reagentsWinUpdate (p : PyVal) (r : ℚ) : Option PyVal :=
  match p with
  | .pprofile (.pnum b) f (.pnum ws) wr =>
    some (.pprofile (.pnum (b + r)) f (.pnum (ws + 1)) wr)
  | _ => none

/-! ## Claim C1: per-channel mutual exclusion of `start` -/

/-- C1: at most one live game session per channel. A start request of either
variant against an occupied channel is rejected (returns `None`, registry and
session set untouched); from a free channel, the first of two start attempts
succeeds and the second is rejected, so exactly one succeeds. -/
theorem start_mutual_exclusion (reg : Registry) (ch : Nat) (v₁ v₂ : Variant)
    (sid₁ sid₂ : Nat) :
    ((reg ch).isSome = true → startGame v₁ sid₁ reg ch = (reg, none))
    ∧ (reg ch = none →
        (startGame v₁ sid₁ reg ch).2 = some ⟨sid₁, v₁, 0⟩
        ∧ (startGame v₂ sid₂ (startGame v₁ sid₁ reg ch).1 ch).2 = none
        ∧ (startGame v₂ sid₂ (startGame v₁ sid₁ reg ch).1 ch).1 =
            (startGame v₁ sid₁ reg ch).1) := by
  constructor
  · intro h
    cases hr : reg ch with
    | none => rw [hr] at h; simp at h
    | some s => simp [startGame, getFromContext, hr, instanceOf]
  · intro h
    simp [startGame, getFromContext, h, instanceOf, updateReg]

/-- Witness for C1: in a channel occupied by a structure game, a reagents
start is rejected; in a free channel the first start succeeds and the second
fails. -/
theorem start_mutual_exclusion_witness :
    startGame Variant.reagentsV 8 occReg 1 = (occReg, none)
    ∧ (startGame Variant.structureV 7 emptyReg 1).2 =
        some ⟨7, Variant.structureV, 0⟩
    ∧ (startGame Variant.reagentsV 8
        (startGame Variant.structureV 7 emptyReg 1).1 1).2 = none :=
  ⟨(start_mutual_exclusion occReg 1 Variant.reagentsV Variant.reagentsV
      8 8).1 rfl,
   ((start_mutual_exclusion emptyReg 1 Variant.structureV Variant.reagentsV
      7 8).2 rfl).1,
   ((start_mutual_exclusion emptyReg 1 Variant.structureV Variant.reagentsV
      7 8).2 rfl).2.1⟩

/-! ## Claim C2: identity-checked unregistration -/

/-- C2: `BaseRunningGame.end` pops the channel's registry entry only when the
registered session is the very instance being ended: ending a stale instance
leaves the registry (and the newer session registered for the channel)
untouched, while ending the registered instance removes the entry. -/
theorem unregister_identity_check (reg : Registry) (ch : Nat) (s' : Session)
    (sid : Nat) (h1 : reg ch = some s') (h2 : s'.sid ≠ sid) :
    endSessionReg reg ch sid = reg
    ∧ endSessionReg reg ch sid ch = some s'
    ∧ endSessionReg reg ch s'.sid ch = none := by
  refine ⟨?_, ?_, ?_⟩ <;> simp [endSessionReg, h1, h2, updateReg]

/-- Witness for C2: ending stale session 9 in a channel registered to
session 7 changes nothing; ending session 7 itself clears the entry. -/
theorem unregister_identity_check_witness :
    endSessionReg occReg 1 9 = occReg
    ∧ endSessionReg occReg 1 9 1 = some ⟨7, Variant.structureV, 0⟩
    ∧ endSessionReg occReg 1 7 1 = none :=
  unregister_identity_check occReg 1 ⟨7, Variant.structureV, 0⟩ 9 rfl
    (by decide)

/-! ## Claim C9: idempotence of ending a session -/

theorem endSessionReg_idem (reg : Registry) (ch sid : Nat) :
    endSessionReg (endSessionReg reg ch sid) ch sid =
      endSessionReg reg ch sid := by
  cases hr : reg ch with
  | none => simp [endSessionReg, hr]
  | some s =>
    by_cases hs : s.sid = sid
    · simp [endSessionReg, hr, hs, updateReg]
    · simp [endSessionReg, hr, hs]

/-- C9: ending a session twice is idempotent — the second `end` cancels the
(already cancelled) tasks again without error and leaves the registry exactly
as the first call left it — and `end` itself never mutates the scoreboard, so
no duplicate scoreboard mutation can come from a repeated `end`. -/
theorem end_idempotent (st : LiveState) (ch sid : Nat) :
    endSession (endSession st ch sid) ch sid = endSession st ch sid
    ∧ (endSession st ch sid).scoreboard = st.scoreboard := by
  refine ⟨?_, rfl⟩
  cases st with
  | mk reg tasks sb =>
    simp [endSession, endSessionReg_idem, List.map_map, Function.comp]

/-! ## Claim C10: variant-scoped message routing -/

/-- C10: `cls.get_from_context` is variant-scoped — when the channel's
registered session belongs to the other variant the lookup yields `None`, so
the variant's `on_message` handler returns immediately and neither increments
that session's attempt counter nor mutates any other state. -/
theorem variant_scoped_lookup (reg : Registry) (ch : Nat) (s : Session)
    (h : reg ch = some s) :
    (s.variant = Variant.reagentsV →
      getFromContext Cls.structureC reg ch = none
      ∧ ∀ b, onMessageStep Cls.structureC reg ch b = reg)
    ∧ (s.variant = Variant.structureV →
      getFromContext Cls.reagentsC reg ch = none
      ∧ ∀ b, onMessageStep Cls.reagentsC reg ch b = reg) := by
  constructor <;> intro hv <;> refine ⟨?_, fun b => ?_⟩ <;>
    simp [getFromContext, onMessageStep, instanceOf, h, hv]

/-- Witness for C10: with a reagents game registered in channel 1, the
structure cog's lookup returns `None` and its message step is a no-op. -/
theorem variant_scoped_lookup_witness :
    getFromContext Cls.structureC reagReg 1 = none
    ∧ ∀ b, onMessageStep Cls.structureC reagReg 1 b = reagReg :=
  (variant_scoped_lookup reagReg 1 ⟨5, Variant.reagentsV, 0⟩ rfl).1 rfl

/-! ## Claim C3: reward of a correct guess -/

theorem isCorrect_iterate (guess : List Nat) (g : StructureGame) (n : Nat) :
    (fun gg => (isCorrect gg guess).1)^[n] g =
      { g with tries := g.tries + n } := by
  induction n with
  | zero => simp
  | succ n ih =>
    rw [Function.iterate_succ_apply', ih]
    simp [isCorrect]
    omega

/-- C3 counterexample: the claim says the reward is the original hidden-set
size, independent of clue reveals. On the ten-letter secret `Psilocybin`, one
`get_clue` call leaves eight hidden positions, and a correct first-attempt
guess is then rewarded `8`, not the original hidden count `10`. -/
theorem reward_shrinks_with_clues_cex :
    (isCorrect (getClueState sampleGame) (strCodes "psilocybin")).2 = true
    ∧ sampleGame.guess_len = 10
    ∧ reward (isCorrect (getClueState sampleGame) (strCodes "psilocybin")).1 = 8
    ∧ reward (isCorrect (getClueState sampleGame) (strCodes "psilocybin")).1 ≠
        (sampleGame.guess_len : ℚ) := by
  have e1 : (isCorrect (getClueState sampleGame)
      (strCodes "psilocybin")).1.secret_chars.length = 8 := by decide
  have e2 : (isCorrect (getClueState sampleGame)
      (strCodes "psilocybin")).1.tries = 1 := by decide
  have e3 : sampleGame.guess_len = 10 := by decide
  refine ⟨by decide, e3, ?_, ?_⟩
  · simp only [reward, e1, e2]
    norm_num
  · simp only [reward, e1, e2, e3]
    norm_num

/-- C3 (amended): the reward of a correct guess equals the number of
currently hidden positions — the original hidden-set size minus the positions
already revealed by clues — scaled by `1` when solved on attempt 1 and by
`1 / 2` on every later attempt; in particular, with no reveals, ten hidden
characters pay `10` on try 1 and `5` afterwards. -/
theorem reward_current_hidden (g : StructureGame) (guess : List Nat)
    (h : g.tries = 0) :
    reward (isCorrect g guess).1 = (g.secret_chars.length : ℚ)
    ∧ ∀ n, reward ((fun gg => (isCorrect gg guess).1)^[n + 2] g) =
        (g.secret_chars.length : ℚ) / 2 := by
  constructor
  · simp [isCorrect, reward, h]
  · intro n
    rw [isCorrect_iterate]
    have hn : ¬(g.tries + (n + 2) ≤ 1) := by omega
    simp [reward, hn]

/-- Witness for C3: on the fresh ten-letter sample game the first-attempt
reward is `10` and the second-attempt reward is `5`. -/
theorem reward_current_hidden_witness :
    sampleGame.tries = 0
    ∧ reward (isCorrect sampleGame (strCodes "psilocybin")).1 = 10
    ∧ reward ((fun gg => (isCorrect gg (strCodes "psilocybin")).1)^[0 + 2]
        sampleGame) = 5 := by
  have H := reward_current_hidden sampleGame (strCodes "psilocybin") rfl
  have e : sampleGame.secret_chars.length = 10 := by decide
  refine ⟨rfl, ?_, ?_⟩
  · rw [H.1, e]
    norm_num
  · rw [H.2 0, e]
    norm_num

/-! ## Claim C8: clue degradation -/

theorem getClueState_iterate (g : StructureGame) (n : Nat) :
    (getClueState^[n] g).secret_chars =
      g.secret_chars.take
        (g.secret_chars.length - n * max 1 (g.guess_len / 4))
    ∧ (getClueState^[n] g).guess_len = g.guess_len := by
  induction n with
  | zero => simp
  | succ n ih =>
    obtain ⟨h1, h2⟩ := ih
    rw [Function.iterate_succ_apply']
    constructor
    · simp only [getClueState, h1, h2, List.length_take, List.take_take]
      congr 1
      rw [Nat.succ_mul]
      omega
    · simp [getClueState, h2]

/-- C8: over any sequence of `get_clue` calls the hidden-position list only
shrinks, staying a prefix of the precomputed shuffle order: after `n` calls it
is the first `length - n * max 1 (guess_len / 4)` positions, so each call
removes `max 1 (guess_len / 4) ≥ 1` positions (until exhaustion), and the
hidden set is empty after at most `guess_len` calls — a bound proportional to
the secret's guessable-character count. -/
theorem clue_reveal_monotone_bounded (g : StructureGame) (n : Nat)
    (h : g.guess_len = g.secret_chars.length) :
    (getClueState^[n + 1] g).secret_chars.length =
      (getClueState^[n] g).secret_chars.length - max 1 (g.guess_len / 4)
    ∧ (getClueState^[n] g).secret_chars =
        g.secret_chars.take
          (g.secret_chars.length - n * max 1 (g.guess_len / 4))
    ∧ (getClueState^[g.guess_len] g).secret_chars = [] := by
  obtain ⟨hn, _⟩ := getClueState_iterate g n
  obtain ⟨hn1, _⟩ := getClueState_iterate g (n + 1)
  obtain ⟨hg, _⟩ := getClueState_iterate g g.guess_len
  refine ⟨?_, hn, ?_⟩
  · rw [hn, hn1, List.length_take, List.length_take, Nat.succ_mul]
    omega
  · rw [hg]
    have hs : 1 ≤ max 1 (g.guess_len / 4) := le_max_left _ _
    have hmul : g.guess_len ≤ g.guess_len * max 1 (g.guess_len / 4) :=
      Nat.le_mul_of_pos_right _ (by omega)
    have hz : g.secret_chars.length -
        g.guess_len * max 1 (g.guess_len / 4) = 0 := by omega
    rw [hz, List.take_zero]

/-- Witness for C8: the sample game satisfies the freshness hypothesis and
its hidden set is empty after `guess_len` clue calls. -/
theorem clue_reveal_monotone_bounded_witness :
    sampleGame.guess_len = sampleGame.secret_chars.length
    ∧ (getClueState^[sampleGame.guess_len] sampleGame).secret_chars = [] :=
  ⟨rfl, (clue_reveal_monotone_bounded sampleGame 0 rfl).2.2⟩

/-! ## Claim C7: normalization idempotence and insensitivity -/

/-- A code point is tame when its lowercased, unaccented form contains no
uppercase ASCII letter. All ASCII and ordinary accented Latin characters are
tame; characters such as `№` (whose NFKD decomposition is `No`) are not. -/
def okChar (c : Nat) : Bool :=
  (unaccentChar (pyLower c)).all (fun d => decide (¬(65 ≤ d ∧ d ≤ 90)))

theorem unaccentChar_lt (c d : Nat) (h : d ∈ unaccentChar c) : d < 128 := by
  unfold unaccentChar at h
  by_cases h1 : c < 128
  · rw [if_pos h1] at h
    simp at h
    omega
  · rw [if_neg h1] at h
    by_cases h2 : c = 0xE9
    · rw [if_pos h2] at h
      simp at h
      omega
    · rw [if_neg h2] at h
      by_cases h3 : c = 0xC9
      · rw [if_pos h3] at h
        simp at h
        omega
      · rw [if_neg h3] at h
        by_cases h4 : c = 0x2116
        · rw [if_pos h4] at h
          simp at h
          rcases h with h | h <;> omega
        · rw [if_neg h4] at h
          simp at h

theorem pyLower_fix {d : Nat} (h1 : d < 128) (h2 : ¬(65 ≤ d ∧ d ≤ 90)) :
    pyLower d = d := by
  unfold pyLower
  rw [if_neg h2, if_neg (by omega)]

theorem unaccentChar_ascii {d : Nat} (h : d < 128) : unaccentChar d = [d] := by
  unfold unaccentChar
  rw [if_pos h]

theorem mem_unformat {s nw : List Nat} {d : Nat} (h : d ∈ unformat s nw) :
    (∃ c ∈ s, d ∈ unaccentChar (pyLower c)) ∧ d ∉ nw := by
  unfold unformat at h
  rw [List.mem_filter] at h
  obtain ⟨h1, h2⟩ := h
  rw [List.mem_flatMap] at h1
  obtain ⟨a, ha, hd⟩ := h1
  rw [List.mem_map] at ha
  obtain ⟨c, hc, rfl⟩ := ha
  exact ⟨⟨c, hc, hd⟩, by simpa using h2⟩

theorem unformat_fixpoint {nw : List Nat} : ∀ {l : List Nat},
    (∀ d ∈ l, d < 128 ∧ ¬(65 ≤ d ∧ d ≤ 90) ∧ d ∉ nw) →
    unformat l nw = l := by
  intro l
  induction l with
  | nil => intro _; rfl
  | cons d t ih =>
    intro h
    obtain ⟨h1, h2, h3⟩ := h d (List.mem_cons_self _ _)
    have step : unformat (d :: t) nw =
        (unaccentChar (pyLower d)).filter (fun c => decide (c ∉ nw))
          ++ unformat t nw := by
      simp [unformat]
    rw [step, pyLower_fix h1 h2, unaccentChar_ascii h1,
      ih (fun x hx => h x (List.mem_cons_of_mem _ hx))]
    simp [h3]

/-- C7 (amended): `unformat` is accent- and case-insensitive
(`unformat "ÉTHANOL" = unformat "ethanol"`), and it is idempotent on every
string of tame characters — those whose lowercased, unaccented forms contain
no uppercase ASCII letter, which covers all ASCII and accented Latin input.
It is not idempotent on every string: see the counterexample with `№`. -/
theorem unformat_idempotent_on_tame (s : List Nat)
    (h : ∀ c ∈ s, okChar c = true) :
    unformat (unformat s defaultNonWord) defaultNonWord =
      unformat s defaultNonWord
    ∧ unformat (strCodes "ÉTHANOL") defaultNonWord =
        unformat (strCodes "ethanol") defaultNonWord := by
  refine ⟨?_, by decide⟩
  apply unformat_fixpoint
  intro d hd
  obtain ⟨⟨c, hc, hdc⟩, hnw⟩ := mem_unformat hd
  have hup := h c hc
  unfold okChar at hup
  rw [List.all_eq_true] at hup
  have hd2 := hup d hdc
  simp at hd2
  exact ⟨unaccentChar_lt _ _ hdc, by omega, hnw⟩

/-- C7 counterexample: `unformat` is not idempotent on every string. `№`
lowercases to itself and NFKD-decomposes to `No`, so
`unformat "№" = "No"` while `unformat "No" = "no"`. -/
theorem unformat_not_idempotent_cex :
    unformat (unformat (strCodes "№") defaultNonWord) defaultNonWord ≠
      unformat (strCodes "№") defaultNonWord := by decide

/-- Witness for C7: the letters of `ethanol` are tame and `unformat` fixes
its own output on them. -/
theorem unformat_idempotent_on_tame_witness :
    (∀ c ∈ strCodes "ethanol", okChar c = true)
    ∧ unformat (unformat (strCodes "ethanol") defaultNonWord) defaultNonWord =
        unformat (strCodes "ethanol") defaultNonWord :=
  ⟨by decide, (unformat_idempotent_on_tame (strCodes "ethanol") (by decide)).1⟩

/-! ## Claim C4: scoreboard round-trip of the found-substances set -/

/-- C4: encoding a profile whose `found_structure_substances` is the set
`{"LSD", "Psilocybin"}` and decoding it back yields a typed `Profile` whose
elements are preserved, but whose `found_structure_substances` is the decoded
JSON array — a Python `list`, not a `set` (`Profile(**obj)` performs no
conversion back to the declared `set[str]` type, on which
`RunningStructureGame.check_answer` later calls `.add`). -/
theorem profile_roundtrip_set_becomes_list :
    decodeVal (encodeVal profLSD) =
      .ok (.pprofile (.pnum 0) (.plist [.pstr "LSD", .pstr "Psilocybin"])
        (.pnum 0) (.pnum 0)) := rfl

/-! ## Claim C5: decoding unrecognized profile shapes -/

/-- C5 counterexample: a serialized entry not recognized as the typed profile
shape (here `{"balance": 5}`, lacking the `__type__` tag) does not raise at
load time — the decoder returns it as a bare mapping. -/
theorem untagged_object_decodes_bare_cex :
    decodeVal (.jobj [("balance", .jnum 5)]) =
      .ok (.pdict [("balance", .pnum 5)]) := rfl

/-- C5 (amended): only an entry tagged `"__type__": "Profile"` whose
remaining keys are not all `Profile` field names raises at load time; an
entry without the tag is returned unchanged as a bare mapping — the decoder
never silently substitutes a default profile. -/
theorem decoder_tagged_raises_untagged_bare (l : List (String × PyVal)) :
    (l.lookup "__type__" = none → objectHook l = .ok (.pdict l))
    ∧ (l.lookup "__type__" = some (.pstr "Profile") →
        (removeKey "__type__" l).all
          (fun p => profileFields.contains p.1) = false →
        objectHook l =
          .error "TypeError: Profile() got an unexpected keyword argument") := by
  constructor
  · intro h
    unfold objectHook
    rw [h]
  · intro h1 h2
    unfold objectHook
    rw [h1]
    show (if isProfileTag (PyVal.pstr "Profile")
        then buildProfile (removeKey "__type__" l)
        else Except.ok (PyVal.pdict (removeKey "__type__" l))) =
      Except.error "TypeError: Profile() got an unexpected keyword argument"
    rw [if_pos (show isProfileTag (PyVal.pstr "Profile") = true from rfl)]
    unfold buildProfile
    rw [if_neg (show ¬_ = true by rw [h2]; simp)]

/-- Witness for C5: an untagged entry decodes to the bare mapping; a tagged
entry with a bogus field raises. -/
theorem decoder_tagged_raises_untagged_bare_witness :
    objectHook [("balance", PyVal.pnum 5)] =
      .ok (.pdict [("balance", PyVal.pnum 5)])
    ∧ objectHook [("__type__", PyVal.pstr "Profile"), ("bogus", PyVal.pnum 1)] =
      .error "TypeError: Profile() got an unexpected keyword argument" :=
  ⟨(decoder_tagged_raises_untagged_bare _).1 rfl,
   (decoder_tagged_raises_untagged_bare _).2 rfl rfl⟩

/-! ## Claim C6: win counter of the reagents game -/

/-- C6: on a first-try reagents win from a fresh profile, the mutation
written in `RunningReagentsGame.check_answer` adds the reward to the balance
and increments `won_structure_games` — the structure-variant counter — while
`won_reagents_games` (the deduction-variant counter the claim designates)
stays `0`. -/
theorem reagents_win_increments_structure_counter :
    reagentsWinUpdate (.pprofile (.pnum 0) (.pset []) (.pnum 0) (.pnum 0))
        (reagentsReward 1) =
      some (.pprofile (.pnum 50) (.pset []) (.pnum 1) (.pnum 0)) := by
  norm_num [reagentsWinUpdate, reagentsReward]

end Psychotropic
